import Mathlib

/-!
Verification development for the generative-AI command handler module (`ts.py`).

The module is orchestration glue: a file classifier (`_valid_file`), an input
materializer (`prepare_input_data` with the `_upload_file` upload-and-poll
protocol), and an inference invoker with a bounded retry loop inside
`ai_process_handler`, followed by chunked delivery of the result text.

The embedding below is shallow: the external collaborators (chat client,
inference service, filesystem) are modelled as explicit oracle parameters
(download result, the sequence of remote file states observed while polling,
the outcome of each `generate_content` call, whether `os.remove` succeeds),
and the handler produces the ordered list of observable effects (chat edits,
replies, deletions, sleeps, file removal) it performs.
-/

/-- A referenced chat message's attachment flags (pyrogram message attribute
truthiness): exactly the six attribute names probed by `ts.py`. -/
structure Reply where
  photo : Bool
  audio : Bool
  voice : Bool
  video : Bool
  video_note : Bool
  document : Bool
deriving DecidableEq, Repr

/-- Embeds `_valid_file` (ts.py lines 19-31).  `file_type = none` models
Python `file_type=None`; the three branches mirror the source exactly,
including the `video_note` probe in the default chain. -/
def _valid_file (reply : Reply) (file_type : Option String) : Bool :=
  if file_type = some "image" then
    reply.photo
  else if file_type = some "audio" ∨ file_type = some "video" then
    reply.audio || reply.voice || reply.video || reply.video_note
  else
    reply.photo || reply.audio || reply.voice || reply.video ||
      reply.video_note || reply.document

/-- A remote uploaded-file handle as returned by the inference service's
upload API: a name and a processing-state string (`"PROCESSING"`,
`"READY"`, `"FAILED"`, ...). -/
structure GFile where
  name : String
  state : String
deriving DecidableEq, Repr

/-- Python substring containment (`pat in l`) on character lists: true iff
`pat` is a prefix of some suffix of `l` (and true for the empty pattern). -/
def listContainsSub : List Char → List Char → Bool
  | pat, [] => pat.isEmpty
  | pat, c :: t => pat.isPrefixOf (c :: t) || listContainsSub pat t

/-- Python `pat in s` for strings. -/
def strContains (s pat : String) : Bool :=
  listContainsSub pat.data s.data

/-- Python `s.lower()` (character-wise lower-casing). -/
def pyLower (s : String) : String :=
  String.mk (s.data.map Char.toLower)

/-- Python `s.endswith(suf)`. -/
def pyEndsWith (s suf : String) : Bool :=
  suf.data.isSuffixOf s.data

/-- Python `str.capitalize`: first character upper-cased, the rest
lower-cased (so `"PDF".capitalize() = "Pdf"`). -/
def pyCapitalize (s : String) : String :=
  match s.data with
  | [] => ""
  | c :: t => String.mk (c.toUpper :: t.map Char.toLower)

/-- The terminal-state check at the end of `_upload_file` (ts.py lines 38-40):
`FAILED` raises `ValueError(f"{file_type.capitalize()} failed to process")`,
any other (non-`PROCESSING`) state returns the handle. -/
def terminalResult (file_type : String) (f : GFile) : Except String GFile :=
  if f.state = "FAILED" then
    Except.error (pyCapitalize file_type ++ " failed to process")
  else
    Except.ok f

/-- Embeds the `_upload_file` poll loop (ts.py lines 33-40).  `f` is the
handle returned by `genai.upload_file`; `rest` is the sequence of handles
the successive `genai.get_file` calls would return.  While the current
state is `"PROCESSING"` the code sleeps 5 seconds and polls again; the
returned list records the seconds slept, in order.  `none` means the
observed trace was exhausted while still `PROCESSING` (the Python loop
would still be running). -/
def uploadPollLoop (file_type : String) : GFile → List GFile →
    Option (Except String GFile × List Nat)
  | f, [] =>
    if f.state = "PROCESSING" then none
    else some (terminalResult file_type f, [])
  | f, g :: rest =>
    if f.state = "PROCESSING" then
      (uploadPollLoop file_type g rest).map (fun r => (r.1, 5 :: r.2))
    else some (terminalResult file_type f, [])

/-- One element of the materialized input list passed to the inference
call: a text prompt, an inline decoded image, or an upload handle. -/
inductive Item where
  | text (s : String)
  | image (path : String)
  | handle (f : GFile)
deriving DecidableEq, Repr

/-- A Python exception value as far as the handler can observe it:
`valueError` for the module's own `raise ValueError(...)`, `other` for
exceptions raised by libraries (inference service, image decoding), and
`unboundLocal` for the `UnboundLocalError` produced by referring to a
name that has been deleted. -/
inductive PyErr where
  | valueError (msg : String)
  | other (msg : String)
  | unboundLocal
deriving DecidableEq, Repr

/-- Helper shared by the four upload branches of `prepare_input_data`:
run the upload-and-poll protocol and wrap the resulting handle with `mk`
(the branch-specific argument order), turning an upload failure into the
`ValueError` that `_upload_file` raises. -/
def uploadAs (file_type : String) (upInit : GFile) (upRest : List GFile)
    (mk : GFile → List Item) : Option (Except PyErr (List Item) × List Nat) :=
  (uploadPollLoop file_type upInit upRest).map fun r =>
    ((match r.1 with
      | Except.ok f => Except.ok (mk f)
      | Except.error m => Except.error (PyErr.valueError m)), r.2)

/-- Embeds `prepare_input_data` (ts.py lines 42-55): first-match-wins
dispatch on the attachment kind.  `imgOk` models whether
`Image.open(...).verify()` succeeds (a corrupt image raises a library
exception, not a `ValueError`); `upInit`/`upRest` are the upload-poll
oracle; the second component of the result is the list of poll sleeps. -/
def prepare_input_data (reply : Reply) (file_path prompt : String)
    (imgOk : Bool) (upInit : GFile) (upRest : List GFile) :
    Option (Except PyErr (List Item) × List Nat) :=
  if reply.photo then
    if imgOk then some (Except.ok [Item.text prompt, Item.image file_path], [])
    else some (Except.error (PyErr.other "image verification failed"), [])
  else if reply.video || reply.video_note then
    uploadAs "video" upInit upRest (fun f => [Item.text prompt, Item.handle f])
  else if reply.audio || reply.voice then
    uploadAs "audio" upInit upRest (fun f => [Item.handle f, Item.text prompt])
  else if reply.document && pyEndsWith file_path ".pdf" then
    uploadAs "PDF" upInit upRest (fun f => [Item.text prompt, Item.handle f])
  else if reply.document then
    uploadAs "document" upInit upRest (fun f => [Item.handle f, Item.text prompt])
  else some (Except.error (PyErr.valueError "Unsupported file type"), [])

/-- The unsupported-MIME signature check of ts.py line 96, applied to an
already lower-cased message. -/
def mimeSig (msg : String) : Bool :=
  strContains msg "mimetype parameter" && strContains msg "not supported"

/-- The transient-error signature check of ts.py line 101, applied to an
already lower-cased message. -/
def transientSig (msg : String) : Bool :=
  strContains msg "403" || strContains msg "429" ||
    strContains msg "permission" || strContains msg "quota"

/-- The inference result object: `candidates` is `none` when the attribute
is absent (or `None`), and `text` is `none` when the attribute is absent
(or `None`). -/
structure Response where
  candidates : Option (List Unit)
  text : Option String
deriving DecidableEq, Repr

/-- The `if not getattr(response, "candidates", [])` truthiness test of
ts.py line 87. -/
def hasCandidates (r : Response) : Bool :=
  !(r.candidates.getD []).isEmpty

/-- The outcome of one `model.generate_content` call: a response value or
a raised exception with the given message. -/
inductive CallResult where
  | ok (r : Response)
  | err (msg : String)
deriving DecidableEq, Repr

/-- How the retry loop of ts.py lines 83-106 is left. -/
inductive LoopExit where
  | earlyEdit (msg : String)
  | raised (e : PyErr)
  | success (r : Response)
deriving DecidableEq, Repr

/-- Result of the retry loop: how it exited, how many `generate_content`
calls were made, and the seconds slept between attempts, in order. -/
structure LoopRes where
  exit : LoopExit
  attempts : Nat
  sleeps : List Nat
deriving DecidableEq, Repr

/-- Embeds the body of `for _ in range(3): ... else: raise e`
(ts.py lines 83-106).  `calls i` is the outcome of the `generate_content`
call on attempt `i` (0-based); `rem` is the number of loop iterations
remaining.  The `rem = 0` case is the `for`-`else` clause: at that point
the name `e` has been cleared (Python deletes the `except ... as e`
binding when the except clause ends), so `raise e` raises an
`UnboundLocalError`, modelled as `PyErr.unboundLocal`.  Service
exceptions are re-raised as `PyErr.other` (they are library error types,
not `ValueError`). -/
def inferLoopAux (calls : Nat → CallResult) (expect_type : Option String) :
    Nat → Nat → LoopRes
  | _, 0 => ⟨LoopExit.raised PyErr.unboundLocal, 0, []⟩
  | i, rem + 1 =>
    match calls i with
    | CallResult.ok r =>
      if hasCandidates r then ⟨LoopExit.success r, 1, []⟩
      else ⟨LoopExit.earlyEdit "Could not generate response.", 1, []⟩
    | CallResult.err m =>
      let msg := pyLower m
      if mimeSig msg then
        match expect_type with
        | none => ⟨LoopExit.earlyEdit "Invalid file type. Please try again.", 1, []⟩
        | some _ => ⟨LoopExit.raised (PyErr.other m), 1, []⟩
      else if transientSig msg then
        let rest := inferLoopAux calls expect_type (i + 1) rem
        ⟨rest.exit, rest.attempts + 1, 2 :: rest.sleeps⟩
      else ⟨LoopExit.raised (PyErr.other m), 1, []⟩

/-- The retry loop as entered by the handler: attempt 0, three iterations. -/
def inferLoop (calls : Nat → CallResult) (expect_type : Option String) : LoopRes :=
  inferLoopAux calls expect_type 0 3

/-- The result-text construction of ts.py lines 108-109: an optional
prompt-echo line (only when the command explicitly supplied a prompt),
then an Answer line whose body is the response text, falling back to
"No content generated." when the text attribute is absent, None, or the
empty string (a Python truthiness fallback). -/
def buildResultText (show_prompt : Bool) (prompt : String) (r : Response) : String :=
  (if show_prompt then "Prompt: " ++ prompt ++ "\n" else "") ++
    "Answer: " ++ (if r.text.getD "" = "" then "No content generated." else r.text.getD "")

/-- Fuel-driven chunking of a character list into consecutive pieces of at
most 4000 characters (`result_text[i:i+4000]` for `i in range(0, len, 4000)`).
The fuel is only a structural-recursion device; `chunksOf4000` always
supplies enough. -/
def chunksAux : Nat → List Char → List (List Char)
  | _, [] => []
  | 0, _ :: _ => []
  | n + 1, c :: t => List.take 4000 (c :: t) :: chunksAux n (List.drop 4000 (c :: t))

/-- The chunk list of ts.py line 112. -/
def chunksOf4000 (l : List Char) : List (List Char) :=
  chunksAux l.length l

/-- The chunks of a string, as strings. -/
def chunks4000 (s : String) : List String :=
  (chunksOf4000 s.data).map String.mk

/-- One observable effect of the handler, in order of occurrence:
`edit text markdown` is `message.edit_text` (`markdown = true` iff
`parse_mode=MARKDOWN` was passed), `reply` is `message.reply_text`,
`delete` is `message.delete()`, `sleep` is `asyncio.sleep`,
`editError e` is `message.edit_text(f"Error: {format_exc(e)}")` (the
`format_exc` helper lives in `utils.scripts`, outside this module, so
the formatted text is kept abstract), and `removeFile` is the
`os.remove` attempt in the `finally` block. -/
inductive Effect where
  | edit (text : String) (markdown : Bool)
  | reply (text : String) (markdown : Bool)
  | delete
  | sleep (secs : Nat)
  | editError (e : PyErr)
  | removeFile (path : String)
deriving DecidableEq, Repr

/-- The result-delivery branch of ts.py lines 111-116: over 4000
characters the text is sent as consecutive chunk replies (markdown) and
the placeholder is deleted; otherwise the placeholder is edited in place
(markdown). -/
def sendResult (result_text : String) : List Effect :=
  if result_text.length > 4000 then
    (chunks4000 result_text).map (fun c => Effect.reply c true) ++ [Effect.delete]
  else
    [Effect.edit result_text true]

/-- How an exception escaping the retry loop or the materializer is
surfaced by the two `except` clauses of ts.py lines 118-122:
`ValueError` is shown verbatim, everything else as a formatted
`"Error: ..."` message. -/
def exceptAction (e : PyErr) : Effect :=
  match e with
  | PyErr.valueError m => Effect.edit m false
  | _ => Effect.editError e

/-- All inputs and oracles of one `ai_process_handler` invocation.
`pfx`/`commandName` feed the usage strings; `download` is the path
returned by `reply.download()` (`none` for a falsy result) and
`downloadedExists` the subsequent `os.path.exists` check; `imgOk`,
`upInit`/`upRest` and `calls` are the materializer and inference oracles;
`removeOk` is whether the final `os.remove` succeeds.  `cook_mode` only
selects the generation config, which has no further observable effect
here. -/
structure HandlerCfg where
  pfx : String
  commandName : String
  hasReply : Bool
  reply : Reply
  prompt : String
  show_prompt : Bool
  cook_mode : Bool
  expect_type : Option String
  status_msg : String
  download : Option String
  downloadedExists : Bool
  imgOk : Bool
  upInit : GFile
  upRest : List GFile
  calls : Nat → CallResult
  removeOk : Bool

/-- The observable outcome of one handler invocation: the ordered effect
trace, and whether the downloaded temporary file was actually deleted at
the end (false when it was never downloaded, or when `os.remove` failed
and the failure was swallowed). -/
structure HandlerRun where
  actions : List Effect
  fileDeleted : Bool
deriving DecidableEq, Repr

/-- The usage text of ts.py lines 61-63 (note: `if expect_type:` is a
truthiness test, so an empty-string category keeps the default text). -/
def usageText (cfg : HandlerCfg) : String :=
  match cfg.expect_type with
  | some t =>
    if t = "" then "Usage: " ++ cfg.pfx ++ cfg.commandName ++ " [prompt] [Reply to a file]"
    else "Usage: " ++ cfg.pfx ++ cfg.commandName ++ " [custom prompt] [Reply to a " ++ t ++ "]"
  | none => "Usage: " ++ cfg.pfx ++ cfg.commandName ++ " [prompt] [Reply to a file]"

/-- `type_text = expect_type if expect_type else "supported"` (ts.py line 67). -/
def typeText (et : Option String) : String :=
  match et with
  | some t => if t = "" then "supported" else t
  | none => "supported"

/-- Embeds `ai_process_handler` (ts.py lines 57-129) as a function from
its inputs and oracles to its observable effect trace.  `none` means the
invocation never terminates (the upload poll loop ran past the observed
state trace).  Every path that enters the `try` block ends with the
`finally` cleanup: the file still exists there (nothing else removed it),
so a `removeFile` attempt is always recorded, and a removal failure is
swallowed (`fileDeleted = removeOk`, with no effect on the trace). -/
def ai_process_handler (cfg : HandlerCfg) : Option HandlerRun :=
  if !cfg.hasReply then
    some ⟨[Effect.edit (usageText cfg) false], false⟩
  else if !(_valid_file cfg.reply cfg.expect_type) then
    some ⟨[Effect.edit ("Invalid " ++ typeText cfg.expect_type ++ " file. Please try again.") false], false⟩
  else
    let pre : List Effect := [Effect.edit cfg.status_msg false]
    match cfg.download with
    | none => some ⟨pre ++ [Effect.edit "Failed to process the file. Try again." false], false⟩
    | some fp =>
      if !cfg.downloadedExists then
        some ⟨pre ++ [Effect.edit "Failed to process the file. Try again." false], false⟩
      else
        match prepare_input_data cfg.reply fp cfg.prompt cfg.imgOk cfg.upInit cfg.upRest with
        | none => none
        | some (prep, pollSleeps) =>
          let pollActs := pollSleeps.map Effect.sleep
          let body : List Effect :=
            match prep with
            | Except.error e => pollActs ++ [exceptAction e]
            | Except.ok _ =>
              let lr := inferLoop cfg.calls cfg.expect_type
              let acts := pollActs ++ lr.sleeps.map Effect.sleep
              match lr.exit with
              | LoopExit.earlyEdit m => acts ++ [Effect.edit m false]
              | LoopExit.raised e => acts ++ [exceptAction e]
              | LoopExit.success r =>
                acts ++ sendResult (buildResultText cfg.show_prompt cfg.prompt r)
          some ⟨pre ++ body ++ [Effect.removeFile fp], cfg.removeOk⟩

/-! ## Theorems about the inference invoker's retry loop -/

lemma inferLoopAux_attempts_le (calls : Nat → CallResult) (et : Option String) :
    ∀ (rem i : Nat), (inferLoopAux calls et i rem).attempts ≤ rem := by
  intro rem
  induction rem with
  | zero => intro i; simp [inferLoopAux]
  | succ n ih =>
    intro i
    simp only [inferLoopAux]
    cases h : calls i with
    | ok r =>
      by_cases hr : hasCandidates r <;> simp [hr]
    | err m =>
      by_cases hm : mimeSig (pyLower m)
      · cases et <;> simp [hm]
      · by_cases ht : transientSig (pyLower m)
        · have := ih (i + 1)
          simp [hm, ht]
          omega
        · simp [hm, ht]

/-- C1: the inference invoker makes at most 3 attempts; an attempt failing
with a transient signature (and not the unsupported-MIME signature, which
is checked first) sleeps 2 seconds and retries; on the error sequence
(quota, quota, success) it makes exactly 3 attempts, returns the
successful response, and sleeps 2 seconds between attempts 1-2 and 2-3;
an error matching neither signature is re-raised immediately with no
further attempts. -/
theorem c1_retry_policy :
    (∀ (calls : Nat → CallResult) (et : Option String),
      (inferLoop calls et).attempts ≤ 3) ∧
    (∀ (calls : Nat → CallResult) (et : Option String) (i rem : Nat) (m : String),
      calls i = CallResult.err m → mimeSig (pyLower m) = false →
      transientSig (pyLower m) = true →
      inferLoopAux calls et i (rem + 1) =
        ⟨(inferLoopAux calls et (i + 1) rem).exit,
         (inferLoopAux calls et (i + 1) rem).attempts + 1,
         2 :: (inferLoopAux calls et (i + 1) rem).sleeps⟩) ∧
    (∀ (calls : Nat → CallResult) (et : Option String) (m0 m1 : String) (r : Response),
      calls 0 = CallResult.err m0 → calls 1 = CallResult.err m1 →
      calls 2 = CallResult.ok r →
      mimeSig (pyLower m0) = false → transientSig (pyLower m0) = true →
      mimeSig (pyLower m1) = false → transientSig (pyLower m1) = true →
      hasCandidates r = true →
      inferLoop calls et = ⟨LoopExit.success r, 3, [2, 2]⟩) ∧
    (∀ (calls : Nat → CallResult) (et : Option String) (i rem : Nat) (m : String),
      calls i = CallResult.err m → mimeSig (pyLower m) = false →
      transientSig (pyLower m) = false →
      inferLoopAux calls et i (rem + 1) = ⟨LoopExit.raised (PyErr.other m), 1, []⟩) := by
  refine ⟨fun calls et => inferLoopAux_attempts_le calls et 3 0, ?_, ?_, ?_⟩
  · intro calls et i rem m hc hm ht
    simp [inferLoopAux, hc, hm, ht]
  · intro calls et m0 m1 r h0 h1 h2 hm0 ht0 hm1 ht1 hr
    simp [inferLoop, inferLoopAux, h0, h1, h2, hm0, ht0, hm1, ht1, hr]
  · intro calls et i rem m hc hm ht
    simp [inferLoopAux, hc, hm, ht]

theorem c1_retry_policy_witness :
    inferLoop
      (fun i => if i = 0 then CallResult.err "429 rate limited"
                else if i = 1 then CallResult.err "Quota exceeded"
                else CallResult.ok ⟨some [()], some "done"⟩) none =
      ⟨LoopExit.success ⟨some [()], some "done"⟩, 3, [2, 2]⟩ :=
  c1_retry_policy.2.2.1 _ none "429 rate limited" "Quota exceeded"
    ⟨some [()], some "done"⟩ rfl rfl rfl (by decide) (by decide)
    (by decide) (by decide) (by decide)

/-- C2 (code behavior at the failing input): after 3 consecutive transient
errors the loop makes no 4th attempt, but the `for`-`else` clause
`raise e` raises an `UnboundLocalError` (Python clears the
`except ... as e` binding when each except clause ends) instead of
propagating the last transient error. -/
theorem c2_exhaustion_unbound_local :
    inferLoop (fun _ => CallResult.err "429 quota exceeded") none =
      ⟨LoopExit.raised PyErr.unboundLocal, 3, [2, 2, 2]⟩ := by
  decide

/-- C6: an attempt whose error message matches the unsupported-MIME
signature aborts immediately; with no expected category it edits the chat
with "Invalid file type. Please try again.", otherwise it re-raises the
error, and in neither case is another attempt made or a sleep performed. -/
theorem c6_mime_abort (calls : Nat → CallResult) (et : Option String)
    (i rem : Nat) (m : String)
    (hc : calls i = CallResult.err m) (hm : mimeSig (pyLower m) = true) :
    (et = none → inferLoopAux calls et i (rem + 1) =
      ⟨LoopExit.earlyEdit "Invalid file type. Please try again.", 1, []⟩) ∧
    (∀ t, et = some t → inferLoopAux calls et i (rem + 1) =
      ⟨LoopExit.raised (PyErr.other m), 1, []⟩) := by
  constructor
  · intro he; subst he; simp [inferLoopAux, hc, hm]
  · intro t he; subst he; simp [inferLoopAux, hc, hm]

theorem c6_mime_abort_witness :
    inferLoopAux
      (fun _ => CallResult.err "Unsupported MIMEType parameter: audio/x-wav is not supported")
      none 0 3 =
      ⟨LoopExit.earlyEdit "Invalid file type. Please try again.", 1, []⟩ :=
  (c6_mime_abort _ none 0 2 _ rfl (by decide)).1 rfl

/-- C7: a successful call whose response has an empty or absent candidate
list makes the handler edit the chat with "Could not generate response."
and return, with no further attempt and no sleep; this early-return exit
is a different constructor from the exception exit. -/
theorem c7_empty_candidates (calls : Nat → CallResult) (et : Option String)
    (i rem : Nat) (r : Response)
    (hc : calls i = CallResult.ok r) (hr : hasCandidates r = false) :
    inferLoopAux calls et i (rem + 1) =
      ⟨LoopExit.earlyEdit "Could not generate response.", 1, []⟩ ∧
    ∀ e, LoopExit.earlyEdit "Could not generate response." ≠ LoopExit.raised e := by
  constructor
  · simp [inferLoopAux, hc, hr]
  · intro e h; cases h

theorem c7_empty_candidates_witness :
    inferLoopAux (fun _ => CallResult.ok ⟨some [], some "x"⟩) none 0 3 =
      ⟨LoopExit.earlyEdit "Could not generate response.", 1, []⟩ :=
  (c7_empty_candidates _ none 0 2 _ rfl (by decide)).1

/-! ## Theorems about the attachment classifier -/

/-- C4 (counterexample): a message carrying only a video-note carries none
of photo, audio, voice, video, document, yet classification with an
absent expected category returns true — refuting the claimed
characterization, whose attachment set omits video-note. -/
theorem c4_counterexample :
    _valid_file ⟨false, false, false, false, true, false⟩ none = true ∧
    ((⟨false, false, false, false, true, false⟩ : Reply).photo ||
     (⟨false, false, false, false, true, false⟩ : Reply).audio ||
     (⟨false, false, false, false, true, false⟩ : Reply).voice ||
     (⟨false, false, false, false, true, false⟩ : Reply).video ||
     (⟨false, false, false, false, true, false⟩ : Reply).document) = false := by
  decide

/-- C4 (amended): with an absent expected category, classification returns
true iff the message carries one of photo, audio, voice, video,
video-note, or document. -/
theorem c4_default_classification (reply : Reply) :
    _valid_file reply none =
      (reply.photo || reply.audio || reply.voice || reply.video ||
       reply.video_note || reply.document) := rfl

/-! ## Theorems about the upload-and-poll protocol -/

/-- C5: whenever the upload poll loop terminates, it slept exactly 5
seconds per poll while the observed state was `PROCESSING`, and at the
first non-`PROCESSING` state it stops: a `FAILED` state raises the
user-facing `"<Category> failed to process"` error, any other terminal
state returns that handle. -/
theorem c5_upload_poll (ft : String) (f : GFile) (rest : List GFile)
    (out : Except String GFile) (sl : List Nat)
    (h : uploadPollLoop ft f rest = some (out, sl)) :
    ∃ k g, (f :: rest)[k]? = some g ∧ g.state ≠ "PROCESSING" ∧
      (∀ j, j < k → ∃ g2, (f :: rest)[j]? = some g2 ∧ g2.state = "PROCESSING") ∧
      sl = List.replicate k 5 ∧
      (g.state = "FAILED" →
        out = Except.error (pyCapitalize ft ++ " failed to process")) ∧
      (g.state ≠ "FAILED" → out = Except.ok g) := by
  induction rest generalizing f out sl with
  | nil =>
    by_cases hp : f.state = "PROCESSING"
    · simp [uploadPollLoop, hp] at h
    · simp only [uploadPollLoop, if_neg hp, Option.some.injEq, Prod.mk.injEq] at h
      refine ⟨0, f, by simp, hp, by simp, by simp [h.2.symm], ?_, ?_⟩
      · intro hf; rw [← h.1]; simp [terminalResult, hf]
      · intro hf; rw [← h.1]; simp [terminalResult, hf]
  | cons g1 rest2 ih =>
    by_cases hp : f.state = "PROCESSING"
    · simp only [uploadPollLoop, if_pos hp] at h
      cases hin : uploadPollLoop ft g1 rest2 with
      | none => rw [hin] at h; simp at h
      | some p =>
        obtain ⟨out2, sl2⟩ := p
        rw [hin] at h
        simp only [Option.map, Option.some.injEq, Prod.mk.injEq] at h
        obtain ⟨k, g, hg, hgp, hpre, hsl, hf1, hf2⟩ := ih g1 out2 sl2 hin
        refine ⟨k + 1, g, by simpa using hg, hgp, ?_, ?_, ?_, ?_⟩
        · intro j hj
          cases j with
          | zero => exact ⟨f, by simp, hp⟩
          | succ j2 =>
            obtain ⟨g2, hg2, hg2p⟩ := hpre j2 (by omega)
            exact ⟨g2, by simpa using hg2, hg2p⟩
        · rw [← h.2, hsl]; simp [List.replicate_succ]
        · intro hf; rw [← h.1]; exact hf1 hf
        · intro hf; rw [← h.1]; exact hf2 hf
    · simp only [uploadPollLoop, if_neg hp, Option.some.injEq, Prod.mk.injEq] at h
      refine ⟨0, f, by simp, hp, by simp, by simp [h.2.symm], ?_, ?_⟩
      · intro hf; rw [← h.1]; simp [terminalResult, hf]
      · intro hf; rw [← h.1]; simp [terminalResult, hf]

theorem c5_upload_poll_witness :
    ∃ k g,
      ((⟨"files/u1", "PROCESSING"⟩ : GFile) :: [(⟨"files/u1", "READY"⟩ : GFile)])[k]? = some g ∧
      g.state ≠ "PROCESSING" ∧
      (∀ j, j < k → ∃ g2,
        ((⟨"files/u1", "PROCESSING"⟩ : GFile) :: [(⟨"files/u1", "READY"⟩ : GFile)])[j]? = some g2 ∧
        g2.state = "PROCESSING") ∧
      ([5] : List Nat) = List.replicate k 5 ∧
      (g.state = "FAILED" →
        (Except.ok (⟨"files/u1", "READY"⟩ : GFile) : Except String GFile) =
          Except.error (pyCapitalize "video" ++ " failed to process")) ∧
      (g.state ≠ "FAILED" →
        (Except.ok (⟨"files/u1", "READY"⟩ : GFile) : Except String GFile) =
          Except.ok g) :=
  c5_upload_poll "video" ⟨"files/u1", "PROCESSING"⟩ [⟨"files/u1", "READY"⟩]
    (Except.ok ⟨"files/u1", "READY"⟩) [5] rfl

/-! ## Theorems about the input materializer -/

/-- C3: materialization dispatches by attachment kind with first-match-wins
priority photo, then video/video-note, then audio/voice, then PDF
document, then other document; it pairs `[prompt, image]` for photo,
`[prompt, handle]` for video/video-note and PDF documents,
`[handle, prompt]` for audio/voice and non-PDF documents, and raises
`ValueError "Unsupported file type"` when no rule matches. -/
theorem c3_materialize_dispatch (reply : Reply) (fp prompt : String)
    (imgOk : Bool) (upInit : GFile) (upRest : List GFile) :
    (reply.photo = true → imgOk = true →
      prepare_input_data reply fp prompt imgOk upInit upRest =
        some (Except.ok [Item.text prompt, Item.image fp], [])) ∧
    (reply.photo = false → (reply.video || reply.video_note) = true →
      ∀ g sl, uploadPollLoop "video" upInit upRest = some (Except.ok g, sl) →
        prepare_input_data reply fp prompt imgOk upInit upRest =
          some (Except.ok [Item.text prompt, Item.handle g], sl)) ∧
    (reply.photo = false → (reply.video || reply.video_note) = false →
      (reply.audio || reply.voice) = true →
      ∀ g sl, uploadPollLoop "audio" upInit upRest = some (Except.ok g, sl) →
        prepare_input_data reply fp prompt imgOk upInit upRest =
          some (Except.ok [Item.handle g, Item.text prompt], sl)) ∧
    (reply.photo = false → (reply.video || reply.video_note) = false →
      (reply.audio || reply.voice) = false → reply.document = true →
      pyEndsWith fp ".pdf" = true →
      ∀ g sl, uploadPollLoop "PDF" upInit upRest = some (Except.ok g, sl) →
        prepare_input_data reply fp prompt imgOk upInit upRest =
          some (Except.ok [Item.text prompt, Item.handle g], sl)) ∧
    (reply.photo = false → (reply.video || reply.video_note) = false →
      (reply.audio || reply.voice) = false → reply.document = true →
      pyEndsWith fp ".pdf" = false →
      ∀ g sl, uploadPollLoop "document" upInit upRest = some (Except.ok g, sl) →
        prepare_input_data reply fp prompt imgOk upInit upRest =
          some (Except.ok [Item.handle g, Item.text prompt], sl)) ∧
    (reply.photo = false → reply.video = false → reply.video_note = false →
      reply.audio = false → reply.voice = false → reply.document = false →
      prepare_input_data reply fp prompt imgOk upInit upRest =
        some (Except.error (PyErr.valueError "Unsupported file type"), [])) := by
  refine ⟨?_, ?_, ?_, ?_, ?_, ?_⟩
  · intro h1 h2; simp [prepare_input_data, h1, h2]
  · intro h1 h2 g sl hu; simp [prepare_input_data, uploadAs, h1, h2, hu]
  · intro h1 h2 h3 g sl hu; simp [prepare_input_data, uploadAs, h1, h2, h3, hu]
  · intro h1 h2 h3 h4 h5 g sl hu
    simp [prepare_input_data, uploadAs, h1, h2, h3, h4, h5, hu]
  · intro h1 h2 h3 h4 h5 g sl hu
    simp [prepare_input_data, uploadAs, h1, h2, h3, h4, h5, hu]
  · intro h1 h2 h3 h4 h5 h6
    simp [prepare_input_data, h1, h2, h3, h4, h5, h6]

theorem c3_materialize_dispatch_witness :
    prepare_input_data ⟨false, true, false, false, false, false⟩ "voice.ogg" "p" true
        ⟨"files/a", "READY"⟩ [] =
      some (Except.ok [Item.handle ⟨"files/a", "READY"⟩, Item.text "p"], []) :=
  (c3_materialize_dispatch ⟨false, true, false, false, false, false⟩ "voice.ogg" "p" true
      ⟨"files/a", "READY"⟩ []).2.2.1 rfl rfl rfl ⟨"files/a", "READY"⟩ [] rfl

/-! ## Theorems about result-text construction and delivery -/

/-- C10: when a call succeeds with a non-empty candidate list but the
response text is absent, `None`, or the empty string, the final reply
body is "Answer: No content generated.", with a "Prompt: ..." line
prepended exactly when the command explicitly supplied a prompt; such a
response is a success exit of the retry loop, not an error. -/
theorem c10_no_content (sp : Bool) (p : String) (r : Response)
    (hc : hasCandidates r = true) (ht : r.text = none ∨ r.text = some "") :
    buildResultText sp p r =
      (if sp then "Prompt: " ++ p ++ "\n" else "") ++ "Answer: No content generated." ∧
    (∀ (calls : Nat → CallResult) (et : Option String),
      calls 0 = CallResult.ok r → inferLoop calls et = ⟨LoopExit.success r, 1, []⟩) := by
  constructor
  · have hx : r.text.getD "" = "" := by rcases ht with h | h <;> simp [h]
    have hy : ("Answer: " ++ "No content generated." : String) =
        "Answer: No content generated." := by decide
    simp [buildResultText, hx, String.append_assoc, hy]
  · intro calls et h0
    simp [inferLoop, inferLoopAux, h0, hc]

theorem c10_no_content_witness :
    buildResultText true "describe" ⟨some [()], none⟩ =
      "Prompt: describe\nAnswer: No content generated." := by
  have h := (c10_no_content true "describe" ⟨some [()], none⟩ (by decide) (Or.inl rfl)).1
  simpa using h

lemma chunksAux_congr : ∀ (n m : Nat) (l : List Char),
    l.length ≤ n → l.length ≤ m → chunksAux n l = chunksAux m l := by
  intro n
  induction n with
  | zero =>
    intro m l hn _
    have he : l = [] := List.eq_nil_of_length_eq_zero (Nat.le_zero.mp hn)
    subst he
    cases m <;> simp [chunksAux]
  | succ n ih =>
    intro m l hn hm
    cases l with
    | nil => cases m <;> simp [chunksAux]
    | cons c t =>
      cases m with
      | zero => simp at hm
      | succ m2 =>
        simp only [List.length_cons] at hn hm
        simp only [chunksAux]
        congr 1
        apply ih
        · simp only [List.length_drop, List.length_cons]; omega
        · simp only [List.length_drop, List.length_cons]; omega

lemma chunksOf4000_nil : chunksOf4000 [] = [] := rfl

lemma chunksOf4000_cons (c : Char) (t : List Char) :
    chunksOf4000 (c :: t) =
      List.take 4000 (c :: t) :: chunksOf4000 (List.drop 4000 (c :: t)) := by
  show chunksAux (c :: t).length (c :: t) = _
  simp only [List.length_cons, chunksAux]
  congr 1
  apply chunksAux_congr
  · simp only [List.length_drop, List.length_cons]; omega
  · exact Nat.le_refl _

lemma chunksOf4000_ne_nil (l : List Char) (h : l ≠ []) :
    chunksOf4000 l = List.take 4000 l :: chunksOf4000 (List.drop 4000 l) := by
  cases l with
  | nil => exact absurd rfl h
  | cons c t => exact chunksOf4000_cons c t

lemma chunksOf4000_flatten : ∀ (n : Nat) (l : List Char), l.length ≤ n →
    (chunksOf4000 l).flatten = l := by
  intro n
  induction n with
  | zero =>
    intro l h
    have he : l = [] := List.eq_nil_of_length_eq_zero (Nat.le_zero.mp h)
    subst he
    simp [chunksOf4000_nil]
  | succ n ih =>
    intro l h
    cases l with
    | nil => simp [chunksOf4000_nil]
    | cons c t =>
      rw [chunksOf4000_cons, List.flatten_cons,
        ih (List.drop 4000 (c :: t))
          (by simp only [List.length_drop, List.length_cons]
              simp only [List.length_cons] at h
              omega)]
      exact List.take_append_drop 4000 (c :: t)

lemma chunksOf4000_le : ∀ (n : Nat) (l : List Char), l.length ≤ n →
    ∀ c ∈ chunksOf4000 l, c.length ≤ 4000 := by
  intro n
  induction n with
  | zero =>
    intro l h c hc
    have he : l = [] := List.eq_nil_of_length_eq_zero (Nat.le_zero.mp h)
    subst he
    simp [chunksOf4000_nil] at hc
  | succ n ih =>
    intro l h c hc
    cases l with
    | nil => simp [chunksOf4000_nil] at hc
    | cons a t =>
      rw [chunksOf4000_cons] at hc
      rcases List.mem_cons.mp hc with h1 | h1
      · subst h1; simp [List.length_take]
      · refine ih (List.drop 4000 (a :: t)) ?_ c h1
        simp only [List.length_drop, List.length_cons]
        simp only [List.length_cons] at h
        omega

lemma chunksOf4000_length_8500 (l : List Char) (h : l.length = 8500) :
    (chunksOf4000 l).length = 3 := by
  have h0 : l ≠ [] := by
    intro e; subst e; simp at h
  rw [chunksOf4000_ne_nil l h0]
  have h1 : (List.drop 4000 l).length = 4500 := by
    simp only [List.length_drop]; omega
  rw [chunksOf4000_ne_nil (List.drop 4000 l)
    (List.ne_nil_of_length_pos (by omega))]
  have h2 : (List.drop 4000 (List.drop 4000 l)).length = 500 := by
    simp only [List.length_drop]; omega
  rw [chunksOf4000_ne_nil (List.drop 4000 (List.drop 4000 l))
    (List.ne_nil_of_length_pos (by omega))]
  have h3 : List.drop 4000 (List.drop 4000 (List.drop 4000 l)) = [] := by
    apply List.eq_nil_of_length_eq_zero
    simp only [List.length_drop]; omega
  rw [h3, chunksOf4000_nil]
  rfl

lemma map_data_mk (L : List (List Char)) : (L.map String.mk).map String.data = L := by
  induction L with
  | nil => rfl
  | cons a t ih =>
    show (String.mk a).data :: (t.map String.mk).map String.data = a :: t
    rw [ih]

/-- C8: a result text longer than 4000 characters is delivered as the
consecutive ≤4000-character chunks, each a separate markdown reply,
followed by deletion of the placeholder (a text of length 8500 yields
exactly 3 chunks); a text of at most 4000 characters instead edits the
placeholder in place with markdown markup. -/
theorem c8_output_dispatch (s : String) :
    (s.length > 4000 →
      sendResult s =
        (chunks4000 s).map (fun c => Effect.reply c true) ++ [Effect.delete] ∧
      (∀ c ∈ chunks4000 s, c.length ≤ 4000) ∧
      ((chunks4000 s).map String.data).flatten = s.data) ∧
    (s.length = 8500 → (chunks4000 s).length = 3) ∧
    (s.length ≤ 4000 → sendResult s = [Effect.edit s true]) := by
  refine ⟨?_, ?_, ?_⟩
  · intro h
    refine ⟨by simp [sendResult, h], ?_, ?_⟩
    · intro c hc
      obtain ⟨l, hl, rfl⟩ := List.mem_map.mp (by simpa [chunks4000] using hc)
      show l.length ≤ 4000
      exact chunksOf4000_le s.data.length s.data (Nat.le_refl _) l hl
    · show (((chunksOf4000 s.data).map String.mk).map String.data).flatten = s.data
      rw [map_data_mk]
      exact chunksOf4000_flatten s.data.length s.data (Nat.le_refl _)
  · intro h
    show ((chunksOf4000 s.data).map String.mk).length = 3
    rw [List.length_map]
    exact chunksOf4000_length_8500 s.data h
  · intro h
    simp only [sendResult, if_neg (by omega : ¬ s.length > 4000)]

theorem c8_output_dispatch_witness :
    (chunks4000 (String.mk (List.replicate 8500 'a'))).length = 3 ∧
    sendResult "hi" = [Effect.edit "hi" true] :=
  ⟨(c8_output_dispatch (String.mk (List.replicate 8500 'a'))).2.1
      (by show (List.replicate 8500 'a').length = 8500; rw [List.length_replicate]),
   (c8_output_dispatch "hi").2.2 (by decide)⟩

/-! ## Theorems about the handler's temp-file cleanup -/

/-- The same handler configuration with only the `os.remove` oracle changed. -/
def withRemoveOk (cfg : HandlerCfg) (b : Bool) : HandlerCfg :=
  ⟨cfg.pfx, cfg.commandName, cfg.hasReply, cfg.reply, cfg.prompt, cfg.show_prompt,
   cfg.cook_mode, cfg.expect_type, cfg.status_msg, cfg.download, cfg.downloadedExists,
   cfg.imgOk, cfg.upInit, cfg.upRest, cfg.calls, b⟩

/-- C9: on every terminating run of the handler that passed validation and
downloaded the file (so it entered the `try` block), the effect trace
ends with the `os.remove` attempt on the downloaded path, the file is
actually gone iff the removal succeeded, and a removal failure is
swallowed: the rest of the run (every user-visible effect) is identical
whatever the removal oracle says. -/
theorem c9_cleanup (cfg : HandlerCfg) (fp : String) (run : HandlerRun)
    (hRep : cfg.hasReply = true)
    (hVal : _valid_file cfg.reply cfg.expect_type = true)
    (hDl : cfg.download = some fp)
    (hEx : cfg.downloadedExists = true)
    (hRun : ai_process_handler cfg = some run) :
    run.actions.getLast? = some (Effect.removeFile fp) ∧
    run.fileDeleted = cfg.removeOk ∧
    (∀ b : Bool, ai_process_handler (withRemoveOk cfg b) = some ⟨run.actions, b⟩) := by
  cases hprep : prepare_input_data cfg.reply fp cfg.prompt cfg.imgOk cfg.upInit cfg.upRest with
  | none =>
    simp [ai_process_handler, hRep, hVal, hDl, hEx, hprep] at hRun
  | some pr =>
    obtain ⟨prep, ps⟩ := pr
    simp only [ai_process_handler, hRep, hVal, hDl, hEx, hprep, Bool.not_true,
      Bool.false_eq_true, if_false, Option.some.injEq] at hRun
    subst hRun
    refine ⟨by rw [List.getLast?_concat], rfl, ?_⟩
    intro b
    simp only [ai_process_handler, withRemoveOk, hRep, hVal, hDl, hEx, hprep,
      Bool.not_true, Bool.false_eq_true, if_false]

/-- A concrete handler configuration: a valid photo reply, successful
download, one successful inference call, `os.remove` failing. -/
def c9cfg : HandlerCfg :=
  ⟨".", "pr", true, ⟨true, false, false, false, false, false⟩, "Summarize", false, false,
   none, "Processing...", some "tmp.jpg", true, true, ⟨"files/u", "READY"⟩, [],
   fun _ => CallResult.ok ⟨some [()], some "ok"⟩, false⟩

/-- The run `c9cfg` produces. -/
def c9run : HandlerRun :=
  ⟨[Effect.edit "Processing..." false, Effect.edit "Answer: ok" true,
    Effect.removeFile "tmp.jpg"], false⟩

theorem c9_cleanup_witness :
    ai_process_handler c9cfg = some c9run ∧
    c9run.actions.getLast? = some (Effect.removeFile "tmp.jpg") ∧
    ai_process_handler (withRemoveOk c9cfg true) = some ⟨c9run.actions, true⟩ :=
  ⟨rfl,
   (c9_cleanup c9cfg "tmp.jpg" c9run rfl rfl rfl rfl rfl).1,
   (c9_cleanup c9cfg "tmp.jpg" c9run rfl rfl rfl rfl rfl).2.2 true⟩
